import Mathlib

/-!
Shallow embedding of the FlowWatcher core crates
(`src/core/engine/src/scheduler.rs`, `src/core/engine/src/speed.rs`,
`src/core/conditions/src/threshold.rs`, `src/core/triggers/src/process.rs`)
together with theorems settling the specification claims about them.

Modelling conventions:
* Rust `u64` values are `ℕ`; `wrapping` additions are written `% 2 ^ 64`
  where overflow is reachable, and `saturating_sub` is truncated `ℕ`
  subtraction (which is exactly its semantics on naturals).
* `std::time::Instant` is a `ℕ` counting nanoseconds;
  `Instant::duration_since` saturates at zero, matching truncated
  subtraction on `ℕ`.
* Fallible Rust functions returning `Result` become `Except`; `&mut self`
  methods take and return the structure explicitly.
* `f64` values arising in `speed.rs` are modelled as exact rationals
  together with an explicit round-to-nearest-even function `rndF64`
  (correct for the normal, non-overflowing range exercised here).
-/

namespace FlowWatcher

/-- Equality of `Except` results is decidable when both components are. -/
instance {ε α : Type} [DecidableEq ε] [DecidableEq α] : DecidableEq (Except ε α) := fun x y =>
  match x, y with
  | .ok a, .ok b =>
      if h : a = b then .isTrue (by rw [h]) else .isFalse (by simp [h])
  | .ok _, .error _ => .isFalse (by simp)
  | .error _, .ok _ => .isFalse (by simp)
  | .error a, .error b =>
      if h : a = b then .isTrue (by rw [h]) else .isFalse (by simp [h])

-- ===========================================================================
-- scheduler.rs : ActionScheduler
-- ===========================================================================

/-- `SchedulerState` from `scheduler.rs`. -/
inductive SchedulerState where
  | Idle
  | Pending
  | Countdown
  | Executed
  | Cancelled
deriving DecidableEq, Repr

/-- The `Display` impl for `SchedulerState`. -/
def SchedulerState.display : SchedulerState → String
  | .Idle => "Idle"
  | .Pending => "Pending"
  | .Countdown => "Countdown"
  | .Executed => "Executed"
  | .Cancelled => "Cancelled"

/-- `SchedulerEvent` from `scheduler.rs`. -/
inductive SchedulerEvent where
  | PreWarning (seconds_until_countdown : ℕ)
  | CountdownStarted (total_seconds : ℕ)
  | CountdownTick (remaining_seconds : ℕ)
  | Cancelled
  | Executed
deriving DecidableEq, Repr

/-- `SchedulerError` from `scheduler.rs`. -/
inductive SchedulerError where
  | InvalidState (action : String) (state : String)
  | ActionError (msg : String)
deriving DecidableEq, Repr

/-- `ActionScheduler` from `scheduler.rs`. -/
structure ActionScheduler where
  state : SchedulerState
  pre_warning_secs : ℕ
  countdown_secs : ℕ
  events : List SchedulerEvent
  elapsed_secs : ℕ
deriving DecidableEq, Repr

namespace ActionScheduler

/-- `ActionScheduler::new`. -/
def new (pre_warning_secs countdown_secs : ℕ) : ActionScheduler :=
  { state := .Idle
    pre_warning_secs := pre_warning_secs
    countdown_secs := countdown_secs
    events := []
    elapsed_secs := 0 }

/-- `ActionScheduler::schedule`. -/
def schedule (s : ActionScheduler) : Except SchedulerError ActionScheduler :=
  if s.state ≠ .Idle ∧ s.state ≠ .Cancelled then
    .error (.InvalidState "schedule" s.state.display)
  else
    .ok { s with
            state := .Pending
            elapsed_secs := 0
            events := s.events ++ [.PreWarning s.pre_warning_secs] }

/-- `ActionScheduler::tick`; the returned `Bool` is `true` when the caller
should execute the action now.  `u64` increments wrap modulo `2 ^ 64`. -/
def tick (s : ActionScheduler) : Except SchedulerError (Bool × ActionScheduler) :=
  match s.state with
  | .Pending =>
      let elapsed := (s.elapsed_secs + 1) % 2 ^ 64
      if s.pre_warning_secs ≤ elapsed then
        .ok (false, { s with
                        state := .Countdown
                        elapsed_secs := 0
                        events := s.events ++ [.CountdownStarted s.countdown_secs] })
      else
        .ok (false, { s with elapsed_secs := elapsed })
  | .Countdown =>
      let elapsed := (s.elapsed_secs + 1) % 2 ^ 64
      let remaining := s.countdown_secs - elapsed
      let s' := { s with
                    elapsed_secs := elapsed
                    events := s.events ++ [.CountdownTick remaining] }
      if remaining = 0 then
        .ok (true, { s' with state := .Executed, events := s'.events ++ [.Executed] })
      else
        .ok (false, s')
  | _ => .ok (false, s)

/-- `ActionScheduler::cancel`. -/
def cancel (s : ActionScheduler) : Except SchedulerError ActionScheduler :=
  match s.state with
  | .Pending | .Countdown =>
      .ok { s with
              state := .Cancelled
              elapsed_secs := 0
              events := s.events ++ [.Cancelled] }
  | _ => .error (.InvalidState "cancel" s.state.display)

/-- `ActionScheduler::execute_now`. -/
def execute_now (s : ActionScheduler) : Except SchedulerError (Bool × ActionScheduler) :=
  match s.state with
  | .Pending | .Countdown =>
      .ok (true, { s with
                     state := .Executed
                     elapsed_secs := 0
                     events := s.events ++ [.Executed] })
  | _ => .error (.InvalidState "execute_now" s.state.display)

/-- `ActionScheduler::reset`. -/
def reset (s : ActionScheduler) : ActionScheduler :=
  { s with state := .Idle, elapsed_secs := 0, events := [] }

end ActionScheduler

end FlowWatcher

namespace FlowWatcher

open ActionScheduler

/-- C1: with `pre_warning_secs = 3` and `countdown_secs = 2`, a `schedule()`
followed by five `tick()` calls walks `Pending → Countdown → Executed`:
the first three ticks return `false`, the third enters `Countdown` queueing
`CountdownStarted 2`, the next two ticks queue `CountdownTick` events, and
the fifth returns `true` leaving the scheduler `Executed` with an
`Executed` event queued. -/
theorem scheduler_prewarn3_countdown2_trace :
    schedule (new 3 2) =
      .ok ⟨.Pending, 3, 2, [.PreWarning 3], 0⟩ ∧
    tick ⟨.Pending, 3, 2, [.PreWarning 3], 0⟩ =
      .ok (false, ⟨.Pending, 3, 2, [.PreWarning 3], 1⟩) ∧
    tick ⟨.Pending, 3, 2, [.PreWarning 3], 1⟩ =
      .ok (false, ⟨.Pending, 3, 2, [.PreWarning 3], 2⟩) ∧
    tick ⟨.Pending, 3, 2, [.PreWarning 3], 2⟩ =
      .ok (false, ⟨.Countdown, 3, 2, [.PreWarning 3, .CountdownStarted 2], 0⟩) ∧
    tick ⟨.Countdown, 3, 2, [.PreWarning 3, .CountdownStarted 2], 0⟩ =
      .ok (false, ⟨.Countdown, 3, 2,
        [.PreWarning 3, .CountdownStarted 2, .CountdownTick 1], 1⟩) ∧
    tick ⟨.Countdown, 3, 2,
        [.PreWarning 3, .CountdownStarted 2, .CountdownTick 1], 1⟩ =
      .ok (true, ⟨.Executed, 3, 2,
        [.PreWarning 3, .CountdownStarted 2, .CountdownTick 1,
         .CountdownTick 0, .Executed], 2⟩) := by
  refine ⟨?_, ?_, ?_, ?_, ?_, ?_⟩ <;> decide

/-- C2: `cancel()` fails with `InvalidState` from `Idle`, `Executed` and
`Cancelled` and is a pure error (the scheduler is returned unchanged by the
caller); from `Pending` or `Countdown` it transitions to `Cancelled`, zeroes
the phase-elapsed counter and queues a `Cancelled` event; and after any
successful `cancel()` a fresh `schedule()` succeeds and re-arms to
`Pending`. -/
theorem cancel_invalid_from_terminal_valid_from_armed :
    (∀ s : ActionScheduler,
      s.state = .Idle ∨ s.state = .Executed ∨ s.state = .Cancelled →
      cancel s = .error (.InvalidState "cancel" s.state.display)) ∧
    (∀ s : ActionScheduler,
      s.state = .Pending ∨ s.state = .Countdown →
      cancel s = .ok { s with
                         state := .Cancelled
                         elapsed_secs := 0
                         events := s.events ++ [.Cancelled] }) ∧
    (∀ s s' : ActionScheduler,
      cancel s = .ok s' →
      schedule s' = .ok { s' with
                            state := .Pending
                            elapsed_secs := 0
                            events := s'.events ++ [.PreWarning s'.pre_warning_secs] }) := by
  refine ⟨?_, ?_, ?_⟩
  · rintro s (h | h | h) <;> simp [cancel, h]
  · rintro s (h | h) <;> simp [cancel, h]
  · intro s s' h
    have hst : s'.state = .Cancelled := by
      cases s with
      | mk st p c ev e =>
        cases st <;> simp [cancel] at h <;> simp [← h]
    simp [schedule, hst]

/-- Witness for `cancel_invalid_from_terminal_valid_from_armed` at concrete
schedulers. -/
theorem cancel_invalid_from_terminal_valid_from_armed_spot :
    cancel ⟨.Executed, 3, 2, [], 0⟩ =
      .error (.InvalidState "cancel" "Executed") ∧
    cancel ⟨.Pending, 3, 2, [.PreWarning 3], 1⟩ =
      .ok ⟨.Cancelled, 3, 2, [.PreWarning 3, .Cancelled], 0⟩ ∧
    schedule ⟨.Cancelled, 3, 2, [.PreWarning 3, .Cancelled], 0⟩ =
      .ok ⟨.Pending, 3, 2, [.PreWarning 3, .Cancelled, .PreWarning 3], 0⟩ := by
  refine ⟨?_, ?_, ?_⟩
  · exact cancel_invalid_from_terminal_valid_from_armed.1 _ (.inr (.inl rfl))
  · exact cancel_invalid_from_terminal_valid_from_armed.2.1 _ (.inl rfl)
  · exact cancel_invalid_from_terminal_valid_from_armed.2.2 _ _
      (cancel_invalid_from_terminal_valid_from_armed.2.1
        ⟨.Pending, 3, 2, [.PreWarning 3], 1⟩ (.inl rfl))

/-- C10: calling `tick()` in `Idle`, `Executed` or `Cancelled` is not an
error: it returns `Ok(false)` and leaves the scheduler (state, queued
events, elapsed counter) completely unchanged; `cancel()` and
`execute_now()` instead return an `InvalidState` error from those states. -/
theorem tick_noop_in_terminal_states :
    ∀ s : ActionScheduler,
      s.state = .Idle ∨ s.state = .Executed ∨ s.state = .Cancelled →
      tick s = .ok (false, s) ∧
      cancel s = .error (.InvalidState "cancel" s.state.display) ∧
      execute_now s = .error (.InvalidState "execute_now" s.state.display) := by
  rintro s (h | h | h) <;>
    exact ⟨by simp [tick, h], by simp [cancel, h], by simp [execute_now, h]⟩

/-- Witness for `tick_noop_in_terminal_states` at a concrete `Executed`
scheduler. -/
theorem tick_noop_in_terminal_states_spot :
    tick ⟨.Executed, 3, 2, [], 0⟩ = .ok (false, ⟨.Executed, 3, 2, [], 0⟩) ∧
    cancel ⟨.Executed, 3, 2, [], 0⟩ =
      .error (.InvalidState "cancel" "Executed") ∧
    execute_now ⟨.Executed, 3, 2, [], 0⟩ =
      .error (.InvalidState "execute_now" "Executed") :=
  tick_noop_in_terminal_states ⟨.Executed, 3, 2, [], 0⟩ (.inr (.inl rfl))

-- ===========================================================================
-- IEEE-754 binary64 model for speed.rs
-- ===========================================================================

/-- Round a rational to the nearest integer, ties to even — the integer-level
rounding step of IEEE-754 round-to-nearest-even. -/
def rhe (q : ℚ) : ℤ :=
  if q - ⌊q⌋ < 1 / 2 then ⌊q⌋
  else if 1 / 2 < q - ⌊q⌋ then ⌊q⌋ + 1
  else if ⌊q⌋ % 2 = 0 then ⌊q⌋ else ⌊q⌋ + 1

/-- Round a nonnegative rational to the nearest IEEE-754 binary64 value
(round-to-nearest, ties to even), represented exactly as a rational.
Faithful on the normal, non-overflowing range that `speed.rs` exercises
(all values here lie well inside `[2^-70, 2^70]`); nonpositive inputs map
to `0`. -/
def rndF64 (q : ℚ) : ℚ :=
  if q ≤ 0 then 0
  else (rhe (q / 2 ^ (Int.log 2 q - 52)) : ℚ) * 2 ^ (Int.log 2 q - 52)

/-- IEEE division `a / b`, i.e. the exact quotient correctly rounded. -/
def f64div (a b : ℚ) : ℚ := rndF64 (a / b)

/-- Rust's `as u64` cast on a (nonnegative) `f64`: truncate toward zero and
saturate at `u64::MAX`. -/
def f64toU64 (q : ℚ) : ℕ := min ⌊q⌋.toNat (2 ^ 64 - 1)

/-- `Duration::as_secs_f64` for a duration of `nanos` nanoseconds:
`secs as f64 + subsec_nanos as f64 / 1e9`, every operation correctly
rounded. -/
def asSecsF64 (nanos : ℕ) : ℚ :=
  rndF64 (rndF64 ((nanos / 1000000000 : ℕ) : ℚ) +
    f64div (rndF64 ((nanos % 1000000000 : ℕ) : ℚ)) (rndF64 ((1000000000 : ℕ) : ℚ)))

theorem rhe_intCast (m : ℤ) : rhe (m : ℚ) = m := by
  simp [rhe]

theorem rndF64_zero : rndF64 0 = 0 := by
  simp [rndF64]

/-- If `q` is a positive integer multiple of its ulp then it is exactly
representable and rounding leaves it unchanged. -/
theorem rndF64_eq_self {q : ℚ} (h0 : 0 < q) (m : ℤ)
    (hm : (m : ℚ) = q / 2 ^ (Int.log 2 q - 52)) : rndF64 q = q := by
  have hne : (2 : ℚ) ^ (Int.log 2 q - 52) ≠ 0 := zpow_ne_zero _ (by norm_num)
  rw [rndF64, if_neg (not_le.mpr h0)]
  rw [← hm, rhe_intCast, hm, div_mul_cancel₀ _ hne]

/-- Natural numbers up to `2 ^ 53` are exactly representable in binary64. -/
theorem rndF64_natCast (n : ℕ) (hn : n ≤ 2 ^ 53) : rndF64 (n : ℚ) = n := by
  rcases Nat.eq_zero_or_pos n with h0 | h0
  · subst h0; simpa using rndF64_zero
  · have hq : (0 : ℚ) < n := by exact_mod_cast h0
    have h1 : (1 : ℚ) ≤ n := by exact_mod_cast h0
    have he0 : 0 ≤ Int.log 2 (n : ℚ) := by
      rw [Int.log_of_one_le_right _ h1]; exact Int.natCast_nonneg _
    have heub : Int.log 2 (n : ℚ) ≤ 53 := by
      have h2 : (n : ℚ) < ((2 : ℕ) : ℚ) ^ (54 : ℤ) := by
        have hle : (n : ℚ) ≤ 2 ^ 53 := by exact_mod_cast hn
        calc (n : ℚ) ≤ 2 ^ 53 := hle
        _ < ((2 : ℕ) : ℚ) ^ (54 : ℤ) := by push_cast; norm_num
      have h3 := (Int.lt_zpow_iff_log_lt (by norm_num) hq).mp h2
      omega
    rcases lt_or_eq_of_le heub with hlt | heq
    · -- `Int.log 2 n ≤ 52`: the ulp is `2 ^ (e - 52) ≤ 1`, and `n / ulp`
      -- is the integer `n * 2 ^ (52 - e)`.
      have h52 : Int.log 2 (n : ℚ) - 52 ≤ 0 := by omega
      refine rndF64_eq_self hq ((n : ℤ) * 2 ^ (52 - Int.log 2 (n : ℚ)).toNat) ?_
      have hcast : ((52 - Int.log 2 (n : ℚ)).toNat : ℤ) = 52 - Int.log 2 (n : ℚ) := by
        omega
      push_cast
      rw [eq_div_iff (zpow_ne_zero _ (by norm_num : (2 : ℚ) ≠ 0))]
      rw [mul_assoc, ← zpow_natCast (2 : ℚ), ← zpow_add₀ (by norm_num : (2 : ℚ) ≠ 0)]
      rw [hcast]
      norm_num
    · -- `Int.log 2 n = 53` forces `n = 2 ^ 53`.
      have hge : ((2 : ℕ) : ℚ) ^ (Int.log 2 (n : ℚ)) ≤ n :=
        Int.zpow_log_le_self (by norm_num) hq
      rw [heq] at hge
      have hge' : ((2 : ℕ) ^ 53 : ℚ) ≤ (n : ℚ) := by
        have : ((2 : ℕ) : ℚ) ^ (53 : ℤ) = ((2 : ℕ) ^ 53 : ℚ) := by
          push_cast
          norm_num
        rwa [this] at hge
      have hn' : (2 : ℕ) ^ 53 ≤ n := by exact_mod_cast hge'
      have hn53 : n = 2 ^ 53 := le_antisymm hn hn'
      subst hn53
      refine rndF64_eq_self hq (2 ^ 52) ?_
      rw [heq]
      push_cast
      norm_num

/-- Characterisation of `Int.log 2` by the enclosing power-of-two interval. -/
theorem int_log2_eq {q : ℚ} {e : ℤ} (h1 : (2 : ℚ) ^ e ≤ q) (h2 : q < 2 ^ (e + 1)) :
    Int.log 2 q = e := by
  have hq : (0 : ℚ) < q := lt_of_lt_of_le (zpow_pos (by norm_num) _) h1
  have hb : 1 < 2 := by norm_num
  have hle : e ≤ Int.log 2 q := by
    have := (Int.zpow_le_iff_le_log hb hq (x := e)).mp (by exact_mod_cast h1)
    exact this
  have hlt : Int.log 2 q < e + 1 := by
    have := (Int.lt_zpow_iff_log_lt hb hq (x := e + 1)).mp (by exact_mod_cast h2)
    exact this
  omega

/-- Rounding an even integer plus one half ties down to the even integer. -/
theorem rhe_int_add_half_even (m : ℤ) (hm : m % 2 = 0) : rhe ((m : ℚ) + 1 / 2) = m := by
  have hf : ⌊(m : ℚ) + 1 / 2⌋ = m := by
    rw [Int.floor_int_add]
    norm_num
  rw [rhe, hf]
  norm_num [hm]

/-- `2 ^ 53 + 1` is the first natural not representable in binary64: it
rounds (ties-to-even) down to `2 ^ 53`. -/
theorem rndF64_two_pow_53_add_one :
    rndF64 ((2 ^ 53 + 1 : ℕ) : ℚ) = ((2 ^ 53 : ℕ) : ℚ) := by
  have he : Int.log 2 ((2 ^ 53 + 1 : ℕ) : ℚ) = 53 := by
    apply int_log2_eq
    · push_cast
      norm_num
    · push_cast
      norm_num
  have key : ((2 ^ 53 + 1 : ℕ) : ℚ) / 2 ^ ((53 : ℤ) - 52) = ((2 ^ 52 : ℤ) : ℚ) + 1 / 2 := by
    push_cast
    norm_num
  rw [rndF64, if_neg (by push_cast; norm_num), he, key,
    rhe_int_add_half_even _ (by norm_num)]
  push_cast
  norm_num

-- ===========================================================================
-- speed.rs : SpeedMonitor
-- ===========================================================================

/-- `NetworkStats` from `platform/src/network.rs`; the `Instant` timestamp
is a nanosecond count. -/
structure NetworkStats where
  bytes_sent : ℕ
  bytes_received : ℕ
  timestamp : ℕ
deriving DecidableEq, Repr

/-- `SpeedReading` from `speed.rs`. -/
structure SpeedReading where
  download_bps : ℕ
  upload_bps : ℕ
deriving DecidableEq, Repr

/-- `SpeedMonitor` from `speed.rs`; the `VecDeque` history is a list whose
head is the front (oldest reading). -/
structure SpeedMonitor where
  interface_id : String
  last_stats : Option NetworkStats
  history : List SpeedReading
  window_size : ℕ
deriving DecidableEq, Repr

namespace SpeedMonitor

/-- `SpeedMonitor::new`. -/
def new (interface_id : String) (window_size : ℕ) : SpeedMonitor :=
  { interface_id := interface_id
    last_stats := none
    history := []
    window_size := window_size }

/-- `SpeedMonitor::poll` on the provider-success path: the stats snapshot the
provider returned is passed in as `current`. -/
def poll (m : SpeedMonitor) (current : NetworkStats) :
    SpeedMonitor × Option SpeedReading :=
  match m.last_stats with
  | some prev =>
      if asSecsF64 (current.timestamp - prev.timestamp) ≤ 0 then
        ({ m with last_stats := some current }, none)
      else
        let reading : SpeedReading :=
          { download_bps :=
              f64toU64 (f64div (rndF64 ((current.bytes_received - prev.bytes_received : ℕ) : ℚ))
                (asSecsF64 (current.timestamp - prev.timestamp)))
            upload_bps :=
              f64toU64 (f64div (rndF64 ((current.bytes_sent - prev.bytes_sent : ℕ) : ℚ))
                (asSecsF64 (current.timestamp - prev.timestamp))) }
        ({ m with
             last_stats := some current
             history :=
               (if m.window_size ≤ m.history.length then m.history.drop 1
                else m.history) ++ [reading] },
         some reading)
  | none => ({ m with last_stats := some current }, none)

/-- `SpeedMonitor::current_download_speed`; the `u64` sum wraps. -/
def current_download_speed (m : SpeedMonitor) : ℕ :=
  if m.history.isEmpty then 0
  else ((m.history.map SpeedReading.download_bps).sum % 2 ^ 64) / m.history.length

/-- `SpeedMonitor::current_upload_speed`; the `u64` sum wraps. -/
def current_upload_speed (m : SpeedMonitor) : ℕ :=
  if m.history.isEmpty then 0
  else ((m.history.map SpeedReading.upload_bps).sum % 2 ^ 64) / m.history.length

/-- `SpeedMonitor::latest_reading`. -/
def latest_reading (m : SpeedMonitor) : Option SpeedReading :=
  m.history.getLast?

/-- A sequence of `poll` calls, keeping only the monitor state. -/
def pollRun (m : SpeedMonitor) (stats : List NetworkStats) : SpeedMonitor :=
  stats.foldl (fun acc s => (poll acc s).1) m

theorem pollRun_nil (m : SpeedMonitor) : pollRun m [] = m := rfl

theorem pollRun_cons (m : SpeedMonitor) (s : NetworkStats)
    (rest : List NetworkStats) :
    pollRun m (s :: rest) = pollRun (poll m s).1 rest := rfl

end SpeedMonitor

theorem rndF64_one : rndF64 (1 : ℚ) = 1 := by
  have h := rndF64_natCast 1 (by norm_num)
  simpa using h

theorem asSecsF64_zero : asSecsF64 0 = 0 := by
  simp [asSecsF64, f64div, rndF64_zero]

theorem asSecsF64_one_sec : asSecsF64 1000000000 = 1 := by
  have h1 : ((1000000000 : ℕ) / 1000000000 : ℕ) = 1 := by norm_num
  have h2 : ((1000000000 : ℕ) % 1000000000 : ℕ) = 0 := by norm_num
  rw [asSecsF64, h1, h2]
  norm_num [f64div, rndF64_zero, rndF64_one]

theorem f64toU64_natCast (n : ℕ) (hn : n < 2 ^ 64) : f64toU64 (n : ℚ) = n := by
  rw [f64toU64, Int.floor_natCast]
  simp
  omega

/-- A whole reading pipeline for a delta that binary64 represents exactly,
over a one-second interval: the computed speed is the delta itself. -/
theorem bps_exact_of_small (δ : ℕ) (hδ : δ ≤ 2 ^ 53) :
    f64toU64 (f64div (rndF64 (δ : ℚ)) 1) = δ := by
  rw [f64div, div_one, rndF64_natCast δ hδ, rndF64_natCast δ hδ,
    f64toU64_natCast δ (by norm_num at hδ ⊢; omega)]

/-- One `poll` step whose snapshot is exactly one second after the previous
one and whose deltas are binary64-exact. -/
theorem poll_one_sec (m : SpeedMonitor) (prev current : NetworkStats)
    (hp : m.last_stats = some prev)
    (ht : current.timestamp = prev.timestamp + 1000000000)
    (hd : current.bytes_received - prev.bytes_received ≤ 2 ^ 53)
    (hu : current.bytes_sent - prev.bytes_sent ≤ 2 ^ 53) :
    SpeedMonitor.poll m current =
      ({ m with
           last_stats := some current
           history :=
             (if m.window_size ≤ m.history.length then m.history.drop 1
              else m.history) ++
               [⟨current.bytes_received - prev.bytes_received,
                 current.bytes_sent - prev.bytes_sent⟩] },
       some ⟨current.bytes_received - prev.bytes_received,
             current.bytes_sent - prev.bytes_sent⟩) := by
  have hts : current.timestamp - prev.timestamp = 1000000000 := by omega
  rw [SpeedMonitor.poll, hp]
  simp only [hts, asSecsF64_one_sec]
  rw [if_neg (by norm_num)]
  simp [bps_exact_of_small _ hd, bps_exact_of_small _ hu]

/-- C7: with a stored previous snapshot, a `poll` whose snapshot is not
later than the previous one returns `None` and leaves the history exactly
as it was, while still replacing the stored last snapshot; and the very
first `poll` of a session likewise returns `None` and only establishes the
baseline snapshot. -/
theorem poll_nonpositive_elapsed_frame :
    (∀ (m : SpeedMonitor) (prev current : NetworkStats),
      m.last_stats = some prev →
      current.timestamp ≤ prev.timestamp →
      SpeedMonitor.poll m current = ({ m with last_stats := some current }, none)) ∧
    (∀ (m : SpeedMonitor) (current : NetworkStats),
      m.last_stats = none →
      SpeedMonitor.poll m current = ({ m with last_stats := some current }, none)) := by
  constructor
  · intro m prev current hp hts
    have h0 : current.timestamp - prev.timestamp = 0 := by omega
    rw [SpeedMonitor.poll, hp]
    simp only [h0, asSecsF64_zero]
    rw [if_pos (by norm_num)]
  · intro m current hp
    rw [SpeedMonitor.poll, hp]

/-- Witness for `poll_nonpositive_elapsed_frame`: a repeated-instant poll
and a first poll, both on concrete monitors. -/
theorem poll_nonpositive_elapsed_frame_spot :
    SpeedMonitor.poll ⟨"eth0", some ⟨5, 5, 100⟩, [⟨7, 7⟩], 3⟩ ⟨9, 9, 100⟩ =
      (⟨"eth0", some ⟨9, 9, 100⟩, [⟨7, 7⟩], 3⟩, none) ∧
    SpeedMonitor.poll (SpeedMonitor.new "eth0" 3) ⟨9, 9, 100⟩ =
      (⟨"eth0", some ⟨9, 9, 100⟩, [], 3⟩, none) :=
  ⟨poll_nonpositive_elapsed_frame.1 ⟨"eth0", some ⟨5, 5, 100⟩, [⟨7, 7⟩], 3⟩
      ⟨5, 5, 100⟩ ⟨9, 9, 100⟩ rfl (by decide),
   poll_nonpositive_elapsed_frame.2 (SpeedMonitor.new "eth0" 3) ⟨9, 9, 100⟩ rfl⟩

/-- One `poll` step keeps the history length within `max window_size 1` and
never changes the window size. -/
theorem poll_history_bound (m : SpeedMonitor) (s : NetworkStats)
    (h : m.history.length ≤ max m.window_size 1) :
    (SpeedMonitor.poll m s).1.history.length ≤ max m.window_size 1 ∧
    (SpeedMonitor.poll m s).1.window_size = m.window_size := by
  rw [SpeedMonitor.poll]
  cases hp : m.last_stats with
  | none => exact ⟨h, rfl⟩
  | some prev =>
    dsimp only
    split
    · exact ⟨h, rfl⟩
    · refine ⟨?_, rfl⟩
      have hdrop : (m.history.drop 1).length = m.history.length - 1 :=
        List.length_drop 1 m.history
      simp only [List.length_append, List.length_cons, List.length_nil]
      split <;> omega

/-- C3 amended: for every window size (including `0`) and every sequence of
polled snapshots, the history length stays at most `max window_size 1`; for
`window_size = 0` a successful delta still pushes one reading, so the bound
`window_size` itself does not hold (see the counterexample), but
`max window_size 1` does. -/
theorem speed_history_bounded (id : String) (w : ℕ) (stats : List NetworkStats) :
    (SpeedMonitor.pollRun (SpeedMonitor.new id w) stats).history.length ≤ max w 1 := by
  suffices h : ∀ (stats : List NetworkStats) (m : SpeedMonitor),
      m.history.length ≤ max m.window_size 1 →
      (SpeedMonitor.pollRun m stats).history.length ≤ max m.window_size 1 by
    exact h stats _ (by simp [SpeedMonitor.new])
  intro stats
  induction stats with
  | nil => intro m h; simpa [SpeedMonitor.pollRun] using h
  | cons s rest ih =>
    intro m h
    have h1 := poll_history_bound m s h
    have h2 := ih ((SpeedMonitor.poll m s).1) (by rw [h1.2]; exact h1.1)
    rw [h1.2] at h2
    exact h2

/-- Counterexample to C3 as stated: with `window_size = 0`, two polls one
second apart leave one reading in the history, exceeding the window size. -/
theorem speed_history_window_zero_cex :
    (SpeedMonitor.pollRun (SpeedMonitor.new "mock0" 0)
        [⟨0, 0, 0⟩, ⟨0, 0, 1000000000⟩]).history.length = 1 ∧
    ¬ ((SpeedMonitor.pollRun (SpeedMonitor.new "mock0" 0)
        [⟨0, 0, 0⟩, ⟨0, 0, 1000000000⟩]).history.length ≤
          (SpeedMonitor.new "mock0" 0).window_size) := by
  have s1 : (SpeedMonitor.poll (SpeedMonitor.new "mock0" 0) ⟨0, 0, 0⟩).1 =
      ⟨"mock0", some ⟨0, 0, 0⟩, [], 0⟩ := rfl
  have s2 := poll_one_sec ⟨"mock0", some ⟨0, 0, 0⟩, [], 0⟩ ⟨0, 0, 0⟩
    ⟨0, 0, 1000000000⟩ rfl (by norm_num) (by norm_num) (by norm_num)
  have s2' : (SpeedMonitor.poll ⟨"mock0", some ⟨0, 0, 0⟩, [], 0⟩
      ⟨0, 0, 1000000000⟩).1 = ⟨"mock0", some ⟨0, 0, 1000000000⟩, [⟨0, 0⟩], 0⟩ := by
    rw [s2]; rfl
  rw [SpeedMonitor.pollRun_cons, s1, SpeedMonitor.pollRun_cons, s2',
    SpeedMonitor.pollRun_nil]
  exact ⟨rfl, by decide⟩

/-- C9 amended: over a whole one-second interval, the computed
`download_bps` equals the byte delta exactly whenever the delta is at most
`2 ^ 53` (the exactly-representable naturals in binary64); beyond that the
`u64 → f64` conversion rounds (see the counterexample). -/
theorem one_second_delta_exact (m : SpeedMonitor) (prev current : NetworkStats)
    (hp : m.last_stats = some prev)
    (ht : current.timestamp = prev.timestamp + 1000000000)
    (hd : current.bytes_received - prev.bytes_received ≤ 2 ^ 53) :
    (SpeedMonitor.poll m current).2.map SpeedReading.download_bps =
      some (current.bytes_received - prev.bytes_received) := by
  have hts : current.timestamp - prev.timestamp = 1000000000 := by omega
  rw [SpeedMonitor.poll, hp]
  simp only [hts, asSecsF64_one_sec]
  rw [if_neg (by norm_num)]
  simp [bps_exact_of_small _ hd]

/-- Witness for `one_second_delta_exact`: a 42-byte delta over one second
yields exactly 42 B/s. -/
theorem one_second_delta_exact_spot :
    (SpeedMonitor.poll ⟨"eth0", some ⟨0, 0, 0⟩, [], 3⟩
        ⟨0, 42, 1000000000⟩).2.map SpeedReading.download_bps = some 42 :=
  one_second_delta_exact ⟨"eth0", some ⟨0, 0, 0⟩, [], 3⟩ ⟨0, 0, 0⟩
    ⟨0, 42, 1000000000⟩ rfl (by norm_num) (by norm_num)

/-- Counterexample to C9 as stated: a delta of `2 ^ 53 + 1` over exactly one
second is reported as `2 ^ 53`, not `2 ^ 53 + 1`, because `Δ as f64` rounds
ties-to-even at the 53-bit significand boundary. -/
theorem one_second_delta_rounds_cex :
    (SpeedMonitor.poll ⟨"eth0", some ⟨0, 0, 0⟩, [], 3⟩
        ⟨0, 2 ^ 53 + 1, 1000000000⟩).2.map SpeedReading.download_bps =
      some (2 ^ 53) ∧
    (2 ^ 53 : ℕ) ≠ 2 ^ 53 + 1 := by
  constructor
  · rw [SpeedMonitor.poll]
    simp only [Nat.sub_zero, asSecsF64_one_sec]
    rw [if_neg (by norm_num)]
    rw [f64div, div_one, rndF64_two_pow_53_add_one,
      rndF64_natCast _ (le_refl _), f64toU64_natCast _ (by norm_num)]
    rfl
  · norm_num

/-- C6: the averaged speeds are the integer-truncated mean `sum / count`
over the current history (`0` when empty; stated under no `u64` overflow of
the sum), and the FIFO eviction makes a window of size 2 fed per-second
readings 500, 500, 2000 average `1250`, and a window of size 3 fed 1000,
100, 1000 average `700`. -/
theorem rolling_average_truncated_mean :
    (∀ m : SpeedMonitor, m.history = [] →
      SpeedMonitor.current_download_speed m = 0 ∧
      SpeedMonitor.current_upload_speed m = 0) ∧
    (∀ m : SpeedMonitor,
      (m.history.map SpeedReading.download_bps).sum < 2 ^ 64 →
      SpeedMonitor.current_download_speed m =
        (m.history.map SpeedReading.download_bps).sum / m.history.length) ∧
    (∀ m : SpeedMonitor,
      (m.history.map SpeedReading.upload_bps).sum < 2 ^ 64 →
      SpeedMonitor.current_upload_speed m =
        (m.history.map SpeedReading.upload_bps).sum / m.history.length) ∧
    SpeedMonitor.current_download_speed
      (SpeedMonitor.pollRun (SpeedMonitor.new "mock0" 2)
        [⟨0, 0, 0⟩, ⟨0, 500, 1000000000⟩, ⟨0, 1000, 2000000000⟩,
         ⟨0, 3000, 3000000000⟩]) = 1250 ∧
    SpeedMonitor.current_download_speed
      (SpeedMonitor.pollRun (SpeedMonitor.new "mock0" 3)
        [⟨0, 0, 0⟩, ⟨0, 1000, 1000000000⟩, ⟨0, 1100, 2000000000⟩,
         ⟨0, 2100, 3000000000⟩]) = 700 := by
  refine ⟨?_, ?_, ?_, ?_, ?_⟩
  · intro m h
    constructor <;>
      simp [SpeedMonitor.current_download_speed, SpeedMonitor.current_upload_speed, h]
  · intro m h
    rw [SpeedMonitor.current_download_speed]
    split
    · rename_i hemp
      rw [List.isEmpty_iff] at hemp
      simp [hemp]
    · rw [Nat.mod_eq_of_lt h]
  · intro m h
    rw [SpeedMonitor.current_upload_speed]
    split
    · rename_i hemp
      rw [List.isEmpty_iff] at hemp
      simp [hemp]
    · rw [Nat.mod_eq_of_lt h]
  · have s1 : (SpeedMonitor.poll (SpeedMonitor.new "mock0" 2) ⟨0, 0, 0⟩).1 =
        ⟨"mock0", some ⟨0, 0, 0⟩, [], 2⟩ := rfl
    have s2 : (SpeedMonitor.poll ⟨"mock0", some ⟨0, 0, 0⟩, [], 2⟩
        ⟨0, 500, 1000000000⟩).1 = ⟨"mock0", some ⟨0, 500, 1000000000⟩, [⟨500, 0⟩], 2⟩ := by
      rw [poll_one_sec _ ⟨0, 0, 0⟩ _ rfl (by norm_num) (by norm_num) (by norm_num)]; rfl
    have s3 : (SpeedMonitor.poll ⟨"mock0", some ⟨0, 500, 1000000000⟩, [⟨500, 0⟩], 2⟩
        ⟨0, 1000, 2000000000⟩).1 =
        ⟨"mock0", some ⟨0, 1000, 2000000000⟩, [⟨500, 0⟩, ⟨500, 0⟩], 2⟩ := by
      rw [poll_one_sec _ ⟨0, 500, 1000000000⟩ _ rfl (by norm_num) (by norm_num)
        (by norm_num)]; rfl
    have s4 : (SpeedMonitor.poll
        ⟨"mock0", some ⟨0, 1000, 2000000000⟩, [⟨500, 0⟩, ⟨500, 0⟩], 2⟩
        ⟨0, 3000, 3000000000⟩).1 =
        ⟨"mock0", some ⟨0, 3000, 3000000000⟩, [⟨500, 0⟩, ⟨2000, 0⟩], 2⟩ := by
      rw [poll_one_sec _ ⟨0, 1000, 2000000000⟩ _ rfl (by norm_num) (by norm_num)
        (by norm_num)]; rfl
    rw [SpeedMonitor.pollRun_cons, s1, SpeedMonitor.pollRun_cons, s2,
      SpeedMonitor.pollRun_cons, s3, SpeedMonitor.pollRun_cons, s4,
      SpeedMonitor.pollRun_nil]
    decide
  · have s1 : (SpeedMonitor.poll (SpeedMonitor.new "mock0" 3) ⟨0, 0, 0⟩).1 =
        ⟨"mock0", some ⟨0, 0, 0⟩, [], 3⟩ := rfl
    have s2 : (SpeedMonitor.poll ⟨"mock0", some ⟨0, 0, 0⟩, [], 3⟩
        ⟨0, 1000, 1000000000⟩).1 =
        ⟨"mock0", some ⟨0, 1000, 1000000000⟩, [⟨1000, 0⟩], 3⟩ := by
      rw [poll_one_sec _ ⟨0, 0, 0⟩ _ rfl (by norm_num) (by norm_num) (by norm_num)]; rfl
    have s3 : (SpeedMonitor.poll ⟨"mock0", some ⟨0, 1000, 1000000000⟩, [⟨1000, 0⟩], 3⟩
        ⟨0, 1100, 2000000000⟩).1 =
        ⟨"mock0", some ⟨0, 1100, 2000000000⟩, [⟨1000, 0⟩, ⟨100, 0⟩], 3⟩ := by
      rw [poll_one_sec _ ⟨0, 1000, 1000000000⟩ _ rfl (by norm_num) (by norm_num)
        (by norm_num)]; rfl
    have s4 : (SpeedMonitor.poll
        ⟨"mock0", some ⟨0, 1100, 2000000000⟩, [⟨1000, 0⟩, ⟨100, 0⟩], 3⟩
        ⟨0, 2100, 3000000000⟩).1 =
        ⟨"mock0", some ⟨0, 2100, 3000000000⟩,
          [⟨1000, 0⟩, ⟨100, 0⟩, ⟨1000, 0⟩], 3⟩ := by
      rw [poll_one_sec _ ⟨0, 1100, 2000000000⟩ _ rfl (by norm_num) (by norm_num)
        (by norm_num)]; rfl
    rw [SpeedMonitor.pollRun_cons, s1, SpeedMonitor.pollRun_cons, s2,
      SpeedMonitor.pollRun_cons, s3, SpeedMonitor.pollRun_cons, s4,
      SpeedMonitor.pollRun_nil]
    decide

/-- Witness for `rolling_average_truncated_mean` on concrete histories. -/
theorem rolling_average_truncated_mean_spot :
    SpeedMonitor.current_download_speed ⟨"eth0", none, [], 3⟩ = 0 ∧
    SpeedMonitor.current_download_speed ⟨"eth0", none, [⟨4, 1⟩, ⟨6, 3⟩], 2⟩ = 5 ∧
    SpeedMonitor.current_upload_speed ⟨"eth0", none, [⟨4, 1⟩, ⟨6, 3⟩], 2⟩ = 2 :=
  ⟨(rolling_average_truncated_mean.1 ⟨"eth0", none, [], 3⟩ rfl).1,
   rolling_average_truncated_mean.2.1 ⟨"eth0", none, [⟨4, 1⟩, ⟨6, 3⟩], 2⟩ (by decide),
   rolling_average_truncated_mean.2.2.1 ⟨"eth0", none, [⟨4, 1⟩, ⟨6, 3⟩], 2⟩ (by decide)⟩

-- ===========================================================================
-- triggers/src/lib.rs : TriggerData, TriggerValue, TriggerState
-- ===========================================================================

/-- `TriggerValue` from `triggers/src/lib.rs`.  The `F64` payload is
modelled as a rational; only the constructor tags matter here. -/
inductive TriggerValue where
  | U64 (v : ℕ)
  | F64 (v : ℚ)
  | Str (v : String)
  | Bool (v : Bool)
deriving DecidableEq, Repr

/-- `TriggerData` from `triggers/src/lib.rs`: a `HashMap<String,
TriggerValue>` modelled extensionally as its lookup function. -/
def TriggerData : Type := String → Option TriggerValue

namespace TriggerData

/-- `TriggerData::new`. -/
def new : TriggerData := fun _ => none

/-- `TriggerData::insert` (`HashMap::insert` overwrites). -/
def insert (d : TriggerData) (key : String) (v : TriggerValue) : TriggerData :=
  fun k => if k = key then some v else d k

/-- `TriggerData::get`. -/
def get (d : TriggerData) (key : String) : Option TriggerValue := d key

end TriggerData

/-- `TriggerError` from `triggers/src/lib.rs`. -/
inductive TriggerError where
  | StartFailed (msg : String)
  | StopFailed (msg : String)
  | EvaluationError (msg : String)
deriving DecidableEq, Repr

/-- `TriggerState` from `triggers/src/lib.rs`. -/
inductive TriggerState where
  | Idle
  | Active (data : TriggerData)
  | Triggered

-- ===========================================================================
-- conditions : ConditionError, ConditionResult, ThresholdCondition
-- ===========================================================================

/-- `ConditionError` from `conditions/src/lib.rs`. -/
inductive ConditionError where
  | MissingData (key : String)
  | InvalidConfig (msg : String)
deriving DecidableEq, Repr

/-- `ConditionResult` from `conditions/src/lib.rs`. -/
inductive ConditionResult where
  | Waiting
  | InProgress (elapsed_secs : ℕ)
  | Met
deriving DecidableEq, Repr

/-- `MonitorMode` from `conditions/src/threshold.rs`. -/
inductive MonitorMode where
  | DownloadOnly
  | UploadOnly
  | Both
deriving DecidableEq, Repr

/-- `ThresholdCondition` from `conditions/src/threshold.rs`; the
`below_since : Option<Instant>` field stores a nanosecond timestamp. -/
structure ThresholdCondition where
  threshold_bytes_per_sec : ℕ
  required_duration_secs : ℕ
  monitor_mode : MonitorMode
  below_since : Option ℕ
deriving DecidableEq, Repr

namespace ThresholdCondition

/-- `ThresholdCondition::new`. -/
def new (threshold_bytes_per_sec required_duration_secs : ℕ)
    (monitor_mode : MonitorMode) : ThresholdCondition :=
  { threshold_bytes_per_sec := threshold_bytes_per_sec
    required_duration_secs := required_duration_secs
    monitor_mode := monitor_mode
    below_since := none }

/-- `ThresholdCondition::extract_u64`. -/
def extract_u64 (data : TriggerData) (key : String) : Except ConditionError ℕ :=
  match data.get key with
  | some (.U64 v) => .ok v
  | some _ => .error (.MissingData (key ++ " is not a u64 value"))
  | none => .error (.MissingData key)

/-- `ThresholdCondition::is_below_threshold` — note that it extracts BOTH
keys before looking at the monitor mode, as the source does. -/
def is_below_threshold (c : ThresholdCondition) (data : TriggerData) :
    Except ConditionError Bool :=
  match extract_u64 data "download_bps" with
  | .error e => .error e
  | .ok download =>
    match extract_u64 data "upload_bps" with
    | .error e => .error e
    | .ok upload =>
      .ok (match c.monitor_mode with
           | .DownloadOnly => download < c.threshold_bytes_per_sec
           | .UploadOnly => upload < c.threshold_bytes_per_sec
           | .Both => download < c.threshold_bytes_per_sec ∧
               upload < c.threshold_bytes_per_sec : Bool)

/-- `<ThresholdCondition as Condition>::evaluate`; `now` is the value
`Instant::now()` returns during the call, in nanoseconds, and the updated
condition is returned alongside the result. -/
def evaluate (c : ThresholdCondition) (now : ℕ) (data : TriggerData) :
    Except ConditionError (ConditionResult × ThresholdCondition) :=
  match is_below_threshold c data with
  | .error e => .error e
  | .ok below =>
    if below then
      let since := c.below_since.getD now
      let c' := { c with below_since := some since }
      let elapsed := (now - since) / 1000000000
      if c.required_duration_secs ≤ elapsed then
        .ok (.Met, c')
      else
        .ok (.InProgress elapsed, c')
    else
      .ok (.Waiting, { c with below_since := none })

/-- `<ThresholdCondition as Condition>::reset`. -/
def reset (c : ThresholdCondition) : ThresholdCondition :=
  { c with below_since := none }

end ThresholdCondition

-- ===========================================================================
-- triggers/src/process.rs : ProcessTrigger
-- ===========================================================================

/-- `ProcessInfo` from `platform/src/process.rs`. -/
structure ProcessInfo where
  pid : ℕ
  name : String
  path : Option String
  estimated_network_bytes : ℕ
  is_suggested : Bool
deriving DecidableEq, Repr

/-- Rust's `str::to_lowercase`, for the ASCII process names used here:
lower-case every character of the string. -/
def lowercase (s : String) : String := ⟨s.data.map Char.toLower⟩

/-- `ProcessTrigger` from `triggers/src/process.rs`; the two `HashSet`s are
modelled as lists, with membership as the set operation. -/
structure ProcessTrigger where
  watched_names : List String
  excluded_names : List String
  threshold_bytes : ℕ
  started : Bool

namespace ProcessTrigger

/-- `ProcessTrigger::new` (lower-cases both name sets). -/
def new (watched_names excluded_names : List String) (threshold_bytes : ℕ) :
    ProcessTrigger :=
  { watched_names := watched_names.map lowercase
    excluded_names := excluded_names.map lowercase
    threshold_bytes := threshold_bytes
    started := false }

/-- `ProcessTrigger::filter_processes`. -/
def filter_processes (t : ProcessTrigger) (processes : List ProcessInfo) :
    List ProcessInfo :=
  processes.filter fun p =>
    t.watched_names.contains (lowercase p.name) &&
      !(t.excluded_names.contains (lowercase p.name))

/-- `ProcessTrigger::all_below_threshold`. -/
def all_below_threshold (t : ProcessTrigger) (filtered : List ProcessInfo) : Bool :=
  if filtered.isEmpty then true
  else filtered.all fun p => p.estimated_network_bytes < t.threshold_bytes

/-- The metrics bag `evaluate_with_processes` builds before branching:
`watched_count`, `active_count` and `total_activity_bytes` (the `u64` total
wraps). -/
def base_data (t : ProcessTrigger) (filtered : List ProcessInfo) : TriggerData :=
  ((TriggerData.new.insert "watched_count" (.U64 filtered.length)).insert
      "active_count"
      (.U64 (filtered.filter fun p =>
        t.threshold_bytes ≤ p.estimated_network_bytes).length)).insert
    "total_activity_bytes"
    (.U64 ((filtered.map ProcessInfo.estimated_network_bytes).sum % 2 ^ 64))

/-- The bag returned in the `Active` state: `base_data` plus
`download_bps := total_activity` and `upload_bps := 0`. -/
def active_data (t : ProcessTrigger) (filtered : List ProcessInfo) : TriggerData :=
  ((base_data t filtered).insert "download_bps"
      (.U64 ((filtered.map ProcessInfo.estimated_network_bytes).sum % 2 ^ 64))).insert
    "upload_bps" (.U64 0)

/-- `ProcessTrigger::evaluate_with_processes`. -/
def evaluate_with_processes (t : ProcessTrigger) (processes : List ProcessInfo) :
    Except TriggerError TriggerState :=
  let filtered := filter_processes t processes
  if all_below_threshold t filtered then
    .ok (.Active (active_data t filtered))
  else
    .ok .Idle

end ProcessTrigger

/-- Counterexample to C4 as stated: a `DownloadOnly` condition evaluated on
a bag holding a `u64` `download_bps` but no `upload_bps` key does not
succeed — it fails with `MissingData "upload_bps"`, because
`is_below_threshold` extracts both keys in every mode. -/
theorem download_only_missing_upload_cex :
    ThresholdCondition.evaluate (ThresholdCondition.new 204800 120 .DownloadOnly) 0
      (TriggerData.new.insert "download_bps" (.U64 100000)) =
      .error (.MissingData "upload_bps") := by
  decide

/-- C4 amended: in every monitor mode, `evaluate` fails (with a
`MissingData` error) exactly when `download_bps` or `upload_bps` is absent
from the bag or not a `u64` — the required keys do not depend on the
mode. -/
theorem evaluate_requires_both_keys (c : ThresholdCondition) (now : ℕ)
    (data : TriggerData) :
    (∃ k, ThresholdCondition.evaluate c now data = .error (.MissingData k)) ↔
      ¬ ((∃ v, data.get "download_bps" = some (.U64 v)) ∧
         (∃ v, data.get "upload_bps" = some (.U64 v))) := by
  rw [ThresholdCondition.evaluate, ThresholdCondition.is_below_threshold]
  rw [ThresholdCondition.extract_u64, ThresholdCondition.extract_u64]
  rcases hd : data.get "download_bps" with _ | vd
  · simp [hd]
  · rcases hu : data.get "upload_bps" with _ | vu
    · cases vd <;> simp [hd, hu]
    · cases vd <;> cases vu <;> simp [hd, hu] <;> split_ifs <;> simp

/-- C5 amended: in `Both` mode a sample with at least one direction at or
above threshold yields `Waiting` and clears `below_since`, whatever streak
was accumulated; the next both-below sample restarts the timer at
`elapsed = 0`, which yields `InProgress 0` when `required_duration_secs` is
positive but `Met` when it is `0` (since `0 ≥ 0`); and any non-`Waiting`
result requires both directions strictly below threshold. -/
theorem both_mode_spike_resets (c : ThresholdCondition)
    (d₁ u₁ d₂ u₂ now₁ now₂ : ℕ) (data₁ data₂ : TriggerData)
    (hmode : c.monitor_mode = .Both)
    (h1d : data₁.get "download_bps" = some (.U64 d₁))
    (h1u : data₁.get "upload_bps" = some (.U64 u₁))
    (hspike : c.threshold_bytes_per_sec ≤ d₁ ∨ c.threshold_bytes_per_sec ≤ u₁)
    (h2d : data₂.get "download_bps" = some (.U64 d₂))
    (h2u : data₂.get "upload_bps" = some (.U64 u₂))
    (h2dlt : d₂ < c.threshold_bytes_per_sec)
    (h2ult : u₂ < c.threshold_bytes_per_sec) :
    (ThresholdCondition.evaluate c now₁ data₁ =
      .ok (.Waiting, { c with below_since := none }) ∧
    ThresholdCondition.evaluate { c with below_since := none } now₂ data₂ =
      .ok ((if c.required_duration_secs = 0 then .Met else .InProgress 0),
        { c with below_since := some now₂ })) ∧
    (∀ (data : TriggerData) (now : ℕ) (r : ConditionResult)
        (c₂ : ThresholdCondition),
      ThresholdCondition.evaluate c now data = .ok (r, c₂) →
      r ≠ .Waiting →
      ∃ d u, data.get "download_bps" = some (.U64 d) ∧
        data.get "upload_bps" = some (.U64 u) ∧
        d < c.threshold_bytes_per_sec ∧ u < c.threshold_bytes_per_sec) := by
  refine ⟨⟨?_, ?_⟩, ?_⟩
  · have hb : ThresholdCondition.is_below_threshold c data₁ = .ok false := by
      rw [ThresholdCondition.is_below_threshold, ThresholdCondition.extract_u64,
        ThresholdCondition.extract_u64, h1d, h1u, hmode]
      rcases hspike with h | h <;> simp [Nat.not_lt.mpr h]
    rw [ThresholdCondition.evaluate, hb]
    simp
  · have hb : ThresholdCondition.is_below_threshold
        { c with below_since := none } data₂ = .ok true := by
      rw [ThresholdCondition.is_below_threshold, ThresholdCondition.extract_u64,
        ThresholdCondition.extract_u64, h2d, h2u]
      simp [hmode, h2dlt, h2ult]
    rw [ThresholdCondition.evaluate, hb]
    simp only [if_true, Option.getD, Nat.sub_self, Nat.zero_div]
    rcases Nat.eq_zero_or_pos c.required_duration_secs with h0 | h0
    · simp [h0]
    · rw [if_neg (by omega)]
      rw [if_neg (by omega)]
  · intro data now r c₂ hev hr
    rw [ThresholdCondition.evaluate] at hev
    rcases hb : ThresholdCondition.is_below_threshold c data with e | below
    · rw [hb] at hev; exact absurd hev (by simp)
    · rw [hb] at hev
      rw [ThresholdCondition.is_below_threshold] at hb
      rcases hd : ThresholdCondition.extract_u64 data "download_bps" with e | d
      · rw [hd] at hb; exact absurd hb (by simp)
      · rcases hu : ThresholdCondition.extract_u64 data "upload_bps" with e | u
        · rw [hd, hu] at hb; exact absurd hb (by simp)
        · rw [hd, hu] at hb
          have hbel : below = true := by
            by_contra hfalse
            rw [Bool.not_eq_true] at hfalse
            rw [hfalse] at hev
            simp at hev
            exact hr (by simp [hev.1])
          subst hbel
          rw [hmode] at hb
          have hb' : d < c.threshold_bytes_per_sec ∧ u < c.threshold_bytes_per_sec := by
            have := hb
            simp at this
            exact this
          refine ⟨d, u, ?_, ?_, hb'.1, hb'.2⟩
          · rw [ThresholdCondition.extract_u64] at hd
            rcases hgd : data.get "download_bps" with _ | v
            · rw [hgd] at hd; exact absurd hd (by simp)
            · rw [hgd] at hd
              cases v <;> simp_all
          · rw [ThresholdCondition.extract_u64] at hu
            rcases hgu : data.get "upload_bps" with _ | v
            · rw [hgu] at hu; exact absurd hu (by simp)
            · rw [hgu] at hu
              cases v <;> simp_all

/-- Witness for `both_mode_spike_resets`: threshold 100, required duration
5 s, an accumulated streak since t=7ns, a spike sample, then a both-below
sample. -/
theorem both_mode_spike_resets_spot :
    ThresholdCondition.evaluate ⟨100, 5, .Both, some 7⟩ 3
        ((TriggerData.new.insert "download_bps" (.U64 200)).insert
          "upload_bps" (.U64 0)) =
      .ok (.Waiting, ⟨100, 5, .Both, none⟩) ∧
    ThresholdCondition.evaluate ⟨100, 5, .Both, none⟩ 9
        ((TriggerData.new.insert "download_bps" (.U64 10)).insert
          "upload_bps" (.U64 20)) =
      .ok (.InProgress 0, ⟨100, 5, .Both, some 9⟩) := by
  have h := both_mode_spike_resets ⟨100, 5, .Both, some 7⟩ 200 0 10 20 3 9
    ((TriggerData.new.insert "download_bps" (.U64 200)).insert
      "upload_bps" (.U64 0))
    ((TriggerData.new.insert "download_bps" (.U64 10)).insert
      "upload_bps" (.U64 20))
    rfl rfl rfl (.inl (by norm_num)) rfl rfl (by norm_num) (by norm_num)
  exact ⟨h.1.1, h.1.2⟩

/-- Counterexample to C5 as stated: with `required_duration_secs = 0`, the
both-below sample right after a spike yields `Met`, not
`InProgress {elapsed_secs := 0}`. -/
theorem both_mode_zero_duration_cex :
    ThresholdCondition.evaluate ⟨100, 0, .Both, none⟩ 0
        ((TriggerData.new.insert "download_bps" (.U64 200)).insert
          "upload_bps" (.U64 0)) =
      .ok (.Waiting, ⟨100, 0, .Both, none⟩) ∧
    ThresholdCondition.evaluate ⟨100, 0, .Both, none⟩ 1
        ((TriggerData.new.insert "download_bps" (.U64 10)).insert
          "upload_bps" (.U64 20)) =
      .ok (.Met, ⟨100, 0, .Both, some 1⟩) ∧
    ConditionResult.Met ≠ ConditionResult.InProgress 0 := by
  refine ⟨?_, ?_, ?_⟩ <;> decide

/-- `all_below_threshold` is the bounded universal over the filtered list:
the empty case is exactly the vacuous truth. -/
theorem all_below_threshold_iff (t : ProcessTrigger) (filtered : List ProcessInfo) :
    ProcessTrigger.all_below_threshold t filtered = true ↔
      ∀ p ∈ filtered, p.estimated_network_bytes < t.threshold_bytes := by
  rw [ProcessTrigger.all_below_threshold]
  split
  · rename_i hemp
    rw [List.isEmpty_iff] at hemp
    simp [hemp]
  · simp [List.all_eq_true]

/-- C8: `evaluate_with_processes` filters to watched-and-not-excluded
processes and returns `Active` exactly when every filtered process is below
`threshold_bytes` (vacuously when the filtered set is empty), `Idle`
otherwise; the `Active` bag carries `watched_count` (filtered size),
`active_count` (filtered processes at or above threshold), `download_bps`
(total filtered activity, stated under no `u64` overflow) and
`upload_bps = 0`. -/
theorem process_trigger_active_iff_all_below (t : ProcessTrigger)
    (processes : List ProcessInfo) :
    ((∀ p ∈ ProcessTrigger.filter_processes t processes,
        p.estimated_network_bytes < t.threshold_bytes) →
      ProcessTrigger.evaluate_with_processes t processes =
        .ok (.Active (ProcessTrigger.active_data t
          (ProcessTrigger.filter_processes t processes)))) ∧
    ((¬ ∀ p ∈ ProcessTrigger.filter_processes t processes,
        p.estimated_network_bytes < t.threshold_bytes) →
      ProcessTrigger.evaluate_with_processes t processes = .ok .Idle) ∧
    (ProcessTrigger.active_data t
        (ProcessTrigger.filter_processes t processes)).get "watched_count" =
      some (.U64 (ProcessTrigger.filter_processes t processes).length) ∧
    (ProcessTrigger.active_data t
        (ProcessTrigger.filter_processes t processes)).get "active_count" =
      some (.U64 ((ProcessTrigger.filter_processes t processes).filter fun p =>
        t.threshold_bytes ≤ p.estimated_network_bytes).length) ∧
    (((ProcessTrigger.filter_processes t processes).map
        ProcessInfo.estimated_network_bytes).sum < 2 ^ 64 →
      (ProcessTrigger.active_data t
          (ProcessTrigger.filter_processes t processes)).get "download_bps" =
        some (.U64 (((ProcessTrigger.filter_processes t processes).map
          ProcessInfo.estimated_network_bytes).sum))) ∧
    (ProcessTrigger.active_data t
        (ProcessTrigger.filter_processes t processes)).get "upload_bps" =
      some (.U64 0) := by
  refine ⟨?_, ?_, ?_, ?_, ?_, ?_⟩
  · intro h
    rw [ProcessTrigger.evaluate_with_processes]
    rw [if_pos ((all_below_threshold_iff t _).mpr h)]
  · intro h
    rw [ProcessTrigger.evaluate_with_processes]
    rw [if_neg (fun hb => h ((all_below_threshold_iff t _).mp hb))]
  · simp [ProcessTrigger.active_data, ProcessTrigger.base_data,
      TriggerData.get, TriggerData.insert]
  · simp [ProcessTrigger.active_data, ProcessTrigger.base_data,
      TriggerData.get, TriggerData.insert]
  · intro h
    simp [ProcessTrigger.active_data, ProcessTrigger.base_data,
      TriggerData.get, TriggerData.insert, Nat.mod_eq_of_lt h]
    exact lt_of_lt_of_eq h (by norm_num)
  · simp [ProcessTrigger.active_data, ProcessTrigger.base_data,
      TriggerData.get, TriggerData.insert]

/-- Witness for `process_trigger_active_iff_all_below`: watching only
`chrome.exe` (at 100 activity bytes, threshold 1000) among four running
processes yields `Active` with `watched_count = 1`, `active_count = 0`,
`download_bps = 100`, `upload_bps = 0`. -/
theorem process_trigger_active_iff_all_below_spot :
    ProcessTrigger.evaluate_with_processes (ProcessTrigger.new ["chrome.exe"] [] 1000)
        [⟨1, "steam.exe", none, 50000, true⟩, ⟨2, "chrome.exe", none, 100, false⟩,
         ⟨3, "explorer.exe", none, 0, false⟩, ⟨4, "svchost.exe", none, 30000, false⟩] =
      .ok (.Active (ProcessTrigger.active_data (ProcessTrigger.new ["chrome.exe"] [] 1000)
        (ProcessTrigger.filter_processes (ProcessTrigger.new ["chrome.exe"] [] 1000)
          [⟨1, "steam.exe", none, 50000, true⟩, ⟨2, "chrome.exe", none, 100, false⟩,
           ⟨3, "explorer.exe", none, 0, false⟩, ⟨4, "svchost.exe", none, 30000, false⟩]))) ∧
    (ProcessTrigger.active_data (ProcessTrigger.new ["chrome.exe"] [] 1000)
        (ProcessTrigger.filter_processes (ProcessTrigger.new ["chrome.exe"] [] 1000)
          [⟨1, "steam.exe", none, 50000, true⟩, ⟨2, "chrome.exe", none, 100, false⟩,
           ⟨3, "explorer.exe", none, 0, false⟩,
           ⟨4, "svchost.exe", none, 30000, false⟩])).get "watched_count" =
      some (.U64 1) ∧
    (ProcessTrigger.active_data (ProcessTrigger.new ["chrome.exe"] [] 1000)
        (ProcessTrigger.filter_processes (ProcessTrigger.new ["chrome.exe"] [] 1000)
          [⟨1, "steam.exe", none, 50000, true⟩, ⟨2, "chrome.exe", none, 100, false⟩,
           ⟨3, "explorer.exe", none, 0, false⟩,
           ⟨4, "svchost.exe", none, 30000, false⟩])).get "download_bps" =
      some (.U64 100) ∧
    (ProcessTrigger.active_data (ProcessTrigger.new ["chrome.exe"] [] 1000)
        (ProcessTrigger.filter_processes (ProcessTrigger.new ["chrome.exe"] [] 1000)
          [⟨1, "steam.exe", none, 50000, true⟩, ⟨2, "chrome.exe", none, 100, false⟩,
           ⟨3, "explorer.exe", none, 0, false⟩,
           ⟨4, "svchost.exe", none, 30000, false⟩])).get "upload_bps" =
      some (.U64 0) := by
  have h := process_trigger_active_iff_all_below (ProcessTrigger.new ["chrome.exe"] [] 1000)
    [⟨1, "steam.exe", none, 50000, true⟩, ⟨2, "chrome.exe", none, 100, false⟩,
     ⟨3, "explorer.exe", none, 0, false⟩, ⟨4, "svchost.exe", none, 30000, false⟩]
  exact ⟨h.1 (by decide), h.2.2.1, h.2.2.2.2.1 (by decide), h.2.2.2.2.2⟩

end FlowWatcher
